import Mathlib

/-!
Verification development for a cookie-based authentication gateway
(Fastify + AWS Cognito Lambda service).

The development shallowly embeds:
* `src/utils/crypto-utils.ts` — `calculateSecretHash` (HMAC-SHA256, base64);
* `src/utils/error-handler.ts` — `AppError`, `handleCognitoError`;
* the JWT authentication plugin — `getJwks` (JWKS cache with 24h TTL),
  `validateToken` (decode, key lookup, verify) and the `authentication`
  request hook.

Machine words are `Nat` with explicit reduction modulo `2^32`; stateful
code is explicit state passing; fallible code returns `Except`.
-/

namespace Gateway

/-! ## Bytes, words and SHA-256 (model of node `crypto` SHA256) -/

/-- Reduce a natural number to a 32-bit word. -/
def w32 (n : Nat) : Nat := n % 4294967296

/-- Right rotation of a 32-bit word by `n` bits. -/
def rotr (n x : Nat) : Nat := w32 ((x >>> n) ||| (x <<< (32 - n)))

def bigSigma0 (x : Nat) : Nat := (rotr 2 x) ^^^ (rotr 13 x) ^^^ (rotr 22 x)

def bigSigma1 (x : Nat) : Nat := (rotr 6 x) ^^^ (rotr 11 x) ^^^ (rotr 25 x)

def smallSigma0 (x : Nat) : Nat := (rotr 7 x) ^^^ (rotr 18 x) ^^^ (x >>> 3)

def smallSigma1 (x : Nat) : Nat := (rotr 17 x) ^^^ (rotr 19 x) ^^^ (x >>> 10)

def ch (x y z : Nat) : Nat := (x &&& y) ^^^ ((4294967295 - w32 x) &&& z)

def maj (x y z : Nat) : Nat := (x &&& y) ^^^ (x &&& z) ^^^ (y &&& z)

/-- The SHA-256 round constants (FIPS 180-4, in decimal). -/
def sha256K : List Nat :=
  [1116352408, 1899447441, 3049323471, 3921009573, 961987163, 1508970993,
   2453635748, 2870763221, 3624381080, 310598401, 607225278, 1426881987,
   1925078388, 2162078206, 2614888103, 3248222580, 3835390401, 4022224774,
   264347078, 604807628, 770255983, 1249150122, 1555081692, 1996064986,
   2554220882, 2821834349, 2952996808, 3210313671, 3336571891, 3584528711,
   113926993, 338241895, 666307205, 773529912, 1294757372, 1396182291,
   1695183700, 1986661051, 2177026350, 2456956037, 2730485921, 2820302411,
   3259730800, 3345764771, 3516065817, 3600352804, 4094571909, 275423344,
   430227734, 506948616, 659060556, 883997877, 958139571, 1322822218,
   1537002063, 1747873779, 1955562222, 2024104815, 2227730452, 2361852424,
   2428436474, 2756734187, 3204031479, 3329325298]

/-- The SHA-256 initial hash value (FIPS 180-4, in decimal). -/
def sha256H0 : List Nat :=
  [1779033703, 3144134277, 1013904242, 2773480762,
   1359893119, 2600822924, 528734635, 1541459225]

/-- Pad a byte string per SHA-256: append `0x80`, zeros to 56 mod 64,
then the bit length as 8 big-endian bytes. -/
def padMessage (msg : List Nat) : List Nat :=
  let len := msg.length
  let zeros := (119 - len % 64) % 64
  let bitLen := len * 8
  msg ++ [128] ++ List.replicate zeros 0 ++
    (List.range 8).map (fun i => (bitLen >>> (8 * (7 - i))) &&& 255)

/-- Split a padded byte string into 64-byte blocks. -/
def blocksOf (padded : List Nat) : List (List Nat) :=
  (List.range (padded.length / 64)).map (fun i => (padded.drop (64 * i)).take 64)

/-- The first 16 words of the message schedule: the block bytes, big-endian. -/
def chunkWords (block : List Nat) : Array Nat :=
  (List.range 16).foldl (fun ws i =>
    ws.push (block.getD (4 * i) 0 * 16777216 + block.getD (4 * i + 1) 0 * 65536 +
             block.getD (4 * i + 2) 0 * 256 + block.getD (4 * i + 3) 0)) #[]

/-- Extend the message schedule from 16 to 64 words. -/
def extendWords (ws : Array Nat) : Array Nat :=
  (List.range 48).foldl (fun ws i =>
    let t := 16 + i
    ws.push (w32 (smallSigma1 (ws.getD (t - 2) 0) + ws.getD (t - 7) 0 +
                  smallSigma0 (ws.getD (t - 15) 0) + ws.getD (t - 16) 0))) ws

/-- One SHA-256 compression step over a 64-byte block. -/
def compressBlock (hs : List Nat) (block : List Nat) : List Nat :=
  let ws := extendWords (chunkWords block)
  let final := (List.range 64).foldl (fun st t =>
    match st with
    | [a, b, c, d, e, f, g, h] =>
      let t1 := w32 (h + bigSigma1 e + ch e f g + sha256K.getD t 0 + ws.getD t 0)
      let t2 := w32 (bigSigma0 a + maj a b c)
      [w32 (t1 + t2), a, b, c, w32 (d + t1), e, f, g]
    | other => other) hs
  List.zipWith (fun x y => w32 (x + y)) hs final

/-- SHA-256 of a byte string, as a 32-byte string. -/
def sha256 (msg : List Nat) : List Nat :=
  let hs := (blocksOf (padMessage msg)).foldl compressBlock sha256H0
  hs.flatMap (fun w => [(w >>> 24) &&& 255, (w >>> 16) &&& 255, (w >>> 8) &&& 255, w &&& 255])

/-- HMAC-SHA256 (RFC 2104) of `msg` keyed by `key`, over bytes. -/
def hmacSha256 (key msg : List Nat) : List Nat :=
  let k0 := if key.length > 64 then sha256 key else key
  let k1 := k0 ++ List.replicate (64 - k0.length) 0
  let ipadKey := k1.map (fun b => b ^^^ 54)
  let opadKey := k1.map (fun b => b ^^^ 92)
  sha256 (opadKey ++ sha256 (ipadKey ++ msg))

/-! ## Base64 and UTF-8 -/

def base64Alphabet : List Char :=
  "ABCDEFGHIJKLMNOPQRSTUVWXYZabcdefghijklmnopqrstuvwxyz0123456789+/".data

def b64c (n : Nat) : Char := base64Alphabet.getD n 'A'

/-- Standard base64 encoding of a byte string, with `=` padding. -/
def base64Encode : List Nat → String
  | [] => ""
  | [b1] =>
    String.mk [b64c (b1 >>> 2), b64c ((b1 &&& 3) * 16)] ++ "=="
  | [b1, b2] =>
    String.mk [b64c (b1 >>> 2), b64c ((b1 &&& 3) * 16 + (b2 >>> 4)), b64c ((b2 &&& 15) * 4)] ++ "="
  | b1 :: b2 :: b3 :: rest =>
    let n := b1 * 65536 + b2 * 256 + b3
    String.mk [b64c (n >>> 18), b64c ((n >>> 12) &&& 63), b64c ((n >>> 6) &&& 63), b64c (n &&& 63)] ++
      base64Encode rest

/-- UTF-8 encoding of a Unicode code point. -/
def utf8EncodeCodepoint (c : Nat) : List Nat :=
  if c < 0x80 then [c]
  else if c < 0x800 then
    [0xC0 ||| (c >>> 6), 0x80 ||| (c &&& 0x3F)]
  else if c < 0x10000 then
    [0xE0 ||| (c >>> 12), 0x80 ||| ((c >>> 6) &&& 0x3F), 0x80 ||| (c &&& 0x3F)]
  else
    [0xF0 ||| (c >>> 18), 0x80 ||| ((c >>> 12) &&& 0x3F), 0x80 ||| ((c >>> 6) &&& 0x3F),
     0x80 ||| (c &&& 0x3F)]

/-- The UTF-8 bytes of a string (node strings are encoded as UTF-8 buffers). -/
def strBytes (s : String) : List Nat := s.data.flatMap (fun c => utf8EncodeCodepoint c.toNat)

/-! ## `calculateSecretHash` (src/utils/crypto-utils.ts)

Modelled on node's `crypto.createHmac(alg, key).update(data).digest("base64")`
call chain: an `Hmac` object holds the key and the accumulated data. -/

structure Hmac where
  key : List Nat
  data : List Nat
deriving Repr, DecidableEq

/-- `crypto.createHmac("SHA256", key)`: fresh HMAC stream keyed by `key`. -/
def createHmac (_alg : String) (key : String) : Hmac := ⟨strBytes key, []⟩

/-- `hmac.update(s)`: append `s`'s bytes to the stream. -/
def Hmac.update (h : Hmac) (s : String) : Hmac := ⟨h.key, h.data ++ strBytes s⟩

/-- `hmac.digest("base64")`: the base64-encoded HMAC-SHA256 digest. -/
def Hmac.digestBase64 (h : Hmac) : String := base64Encode (hmacSha256 h.key h.data)

/-- `calculateSecretHash` from `src/utils/crypto-utils.ts`:
`crypto.createHmac("SHA256", clientSecret).update(username + clientId).digest("base64")`. -/
def calculateSecretHash (clientId clientSecret username : String) : String :=
  (Hmac.update (createHmac "SHA256" clientSecret) (username ++ clientId)).digestBase64

/-! ## `AppError` and `handleCognitoError` (src/utils/error-handler.ts) -/

structure AppError where
  message : String
  statusCode : Nat
  errorCode : String
deriving Repr, DecidableEq

/-- `handleCognitoError` from `src/utils/error-handler.ts`, as a function of the
extracted error type (`error?.__type || error?.name || "UnknownError"`). -/
def handleCognitoError (errorType : String) : AppError :=
  match errorType with
  | "UserNotConfirmedException" =>
    ⟨"User not confirmed. Please check your email for a verification link.", 403, errorType⟩
  | "NotAuthorizedException" =>
    ⟨"Incorrect username or password. Please verify your credentials.", 401, errorType⟩
  | "UserNotFoundException" =>
    ⟨"User not found. Please register or check your email address.", 404, errorType⟩
  | "PasswordResetRequiredException" =>
    ⟨"Password reset required. Please reset your password before logging in.", 403, errorType⟩
  | "CodeMismatchException" =>
    ⟨"Invalid verification code. Please try again.", 400, errorType⟩
  | "ExpiredCodeException" =>
    ⟨"Verification code has expired. Please request a new one.", 400, errorType⟩
  | "TooManyRequestsException" =>
    ⟨"Too many requests. Please try again later.", 429, errorType⟩
  | "InvalidPasswordException" =>
    ⟨"Password does not meet requirements. It should include uppercase, lowercase, numbers, and special characters.", 400, errorType⟩
  | "UsernameExistsException" =>
    ⟨"An account with this email already exists.", 409, errorType⟩
  | "LimitExceededException" =>
    ⟨"Operation limit exceeded. Please try again later.", 429, errorType⟩
  | _ =>
    ⟨"An authentication error occurred. Please try again later.", 500, "INTERNAL_AUTH_ERROR"⟩

/-- The provider error codes `handleCognitoError`'s switch recognizes. -/
def recognizedCognitoErrors : List String :=
  ["UserNotConfirmedException", "NotAuthorizedException", "UserNotFoundException",
   "PasswordResetRequiredException", "CodeMismatchException", "ExpiredCodeException",
   "TooManyRequestsException", "InvalidPasswordException", "UsernameExistsException",
   "LimitExceededException"]

/-! ## JWKS, tokens and the authentication plugin

Shallow embedding of the Fastify authentication plugin: the module-level
mutable cache (`jwksCache`, `jwksLastFetch`) becomes an explicit
`JwksState`; the outside world (the clock and the remote Cognito JWKS
endpoint) becomes a `World`; every operation returns its result, the new
cache state and the number of network fetch attempts it performed. -/

/-- A JSON Web Key as served by the Cognito JWKS endpoint. -/
structure Jwk where
  kid : String
  kty : String
  material : String
deriving Repr, DecidableEq

/-- `jwkToPem`: converts a JWK to PEM text. It depends on the key material
only (not on the `kid` label). -/
def jwkToPem (k : Jwk) : String := "-----BEGIN KEY-----" ++ k.kty ++ ":" ++ k.material ++ "-----END KEY-----"

/-- Environment configuration (`AWS_REGION`, `AWS_COGNITO_USER_POOL_ID`). -/
structure Config where
  region : String
  userPoolId : String
deriving Repr, DecidableEq

/-- The expected issuer URL built in `validateToken`'s `jwt.verify` options. -/
def issuerUrl (cfg : Config) : String :=
  "https://cognito-idp." ++ cfg.region ++ ".amazonaws.com/" ++ cfg.userPoolId

/-- Decoded JWT header (`alg`, optional `kid`). -/
structure TokenHeader where
  alg : String
  kid : Option String
deriving Repr, DecidableEq

/-- Decoded JWT payload: issuer, expiry (seconds since epoch), subject, email. -/
structure TokenPayload where
  iss : Option String
  exp : Option Int
  sub : String
  email : String
deriving Repr, DecidableEq

/-- A bearer token: decoded parts, the signature carried by the token, and
whether the compact serialization parses at all. -/
structure Token where
  wellFormed : Bool
  header : TokenHeader
  payload : TokenPayload
  sig : String
deriving Repr, DecidableEq

/-- The RS256 signature the holder of the key behind `pem` would produce over
the token's header and payload. -/
def mkSig (pem : String) (h : TokenHeader) (p : TokenPayload) : String :=
  "RS256SIG[" ++ pem ++ "|" ++ h.alg ++ "|" ++ (h.kid.getD "") ++ "|" ++ (p.iss.getD "") ++ "|" ++
    toString (p.exp.getD 0) ++ "|" ++ p.sub ++ "|" ++ p.email ++ "]"

/-- The token's signature is a valid signature by the key behind `pem` over
the token's own header and payload. -/
def sigValid (pem : String) (t : Token) : Bool :=
  t.sig == mkSig pem t.header t.payload

/-- `jwt.decode(token, \x7b complete: true \x7d)`: `none` when parsing fails. -/
def jwtDecodeComplete (t : Token) : Option Token :=
  if t.wellFormed then some t else none

inductive JwtVerifyError
  | invalidAlgorithm
  | invalidSignature
  | tokenExpired
  | invalidIssuer
deriving Repr, DecidableEq

/-- `jwt.verify(token, pem, \x7b issuer, algorithms \x7d)` from the
`jsonwebtoken` library, at clock time `nowSec` (seconds): checks the header
algorithm against the allow-list, then the signature, then expiry
(`exp`, when present: expired iff `nowSec ≥ exp`), then the issuer. -/
def jwtVerify (t : Token) (pem : String) (issuer : String) (algorithms : List String)
    (nowSec : Int) : Except JwtVerifyError TokenPayload :=
  if ¬ (algorithms.contains t.header.alg) then .error .invalidAlgorithm
  else if ¬ (sigValid pem t) then .error .invalidSignature
  else
    match t.payload.exp with
    | some e =>
      if nowSec ≥ e then .error .tokenExpired
      else if t.payload.iss ≠ some issuer then .error .invalidIssuer
      else .ok t.payload
    | none =>
      if t.payload.iss ≠ some issuer then .error .invalidIssuer
      else .ok t.payload

/-- The module-level JWKS cache: `jwksCache` (`null` or an array of keys)
and `jwksLastFetch` (ms since epoch). -/
structure JwksState where
  jwksCache : Option (List Jwk)
  jwksLastFetch : Int
deriving Repr, DecidableEq

/-- Initial state: `jwksCache = null`, `jwksLastFetch = 0`. -/
def initialJwksState : JwksState := ⟨none, 0⟩

/-- `CACHE_TTL = 24 * 60 * 60 * 1000` (24 hours in ms). -/
def CACHE_TTL : Int := 24 * 60 * 60 * 1000

/-- The world outside the process: the clock (`Date.now()`, ms) and the
remote JWKS endpoint (`some keys` when a GET succeeds and returns `keys`;
`none` when the endpoint is unreachable). -/
structure World where
  now : Int
  remoteKeys : Option (List Jwk)
deriving Repr, DecidableEq

/-- `jwt.verify`'s clock is in seconds: `Math.floor(Date.now() / 1000)`. -/
def World.nowSec (w : World) : Int := w.now / 1000

/-- The error taxonomy of the verification pipeline, one constructor per
distinct `throw new Error(...)` site. -/
inductive TokenError
  | MALFORMED
  | UNKNOWN_KEY
  | INVALID
  | FETCH_ERROR
deriving Repr, DecidableEq

/-- The exact message each throw site uses. -/
def TokenError.message : TokenError → String
  | .MALFORMED => "Invalid token format"
  | .UNKNOWN_KEY => "Invalid token signature: Key ID not found"
  | .INVALID => "Invalid token"
  | .FETCH_ERROR => "Failed to retrieve JWKs"

/-- The `try/catch` block of `getJwks`: one `axios.get` of the JWKS URL;
on success overwrite `jwksCache` and `jwksLastFetch`, on failure throw
`"Failed to retrieve JWKs"`. Always exactly one fetch attempt. -/
def fetchJwks (w : World) (s : JwksState) : Except TokenError (List Jwk) × JwksState × Nat :=
  match w.remoteKeys with
  | some keys => (.ok keys, ⟨some keys, w.now⟩, 1)
  | none => (.error .FETCH_ERROR, s, 1)

/-- `getJwks()`: return the cache when it exists and is within TTL, else
fetch, overwrite the cache and timestamp on success, and throw on fetch
failure. The third component counts network fetch attempts. -/
def getJwks (w : World) (s : JwksState) : Except TokenError (List Jwk) × JwksState × Nat :=
  match s.jwksCache with
  | none => fetchJwks w s
  | some cache =>
    if w.now - s.jwksLastFetch > CACHE_TTL then fetchJwks w s
    else (.ok cache, s, 0)

/-- `validateToken(token)`: decode the header, look the `kid` up in the JWKS
from `getJwks`, convert the matched key to PEM and `jwt.verify` the token
with the Cognito issuer and the `["RS256"]` allow-list; every `jwt.verify`
failure is caught and rethrown as `"Invalid token"`. -/
def validateToken (cfg : Config) (w : World) (s : JwksState) (t : Token) :
    Except TokenError TokenPayload × JwksState × Nat :=
  match jwtDecodeComplete t with
  | none => (.error .MALFORMED, s, 0)
  | some dt =>
    match dt.header.kid with
    | none => (.error .MALFORMED, s, 0)
    | some kid =>
      if kid = "" then (.error .MALFORMED, s, 0)
      else
        match getJwks w s with
        | (.error e, s2, n) => (.error e, s2, n)
        | (.ok jwks, s2, n) =>
          match jwks.find? (fun k => k.kid == kid) with
          | none => (.error .UNKNOWN_KEY, s2, n)
          | some key =>
            match jwtVerify t (jwkToPem key) (issuerUrl cfg) ["RS256"] w.nowSec with
            | .ok payload => (.ok payload, s2, n)
            | .error _ => (.error .INVALID, s2, n)

/-- An inbound request, as the authentication hook sees it: the value of the
`authToken` cookie, when present. -/
structure Request where
  authTokenCookie : Option Token
deriving Repr, DecidableEq

/-- What the authentication hook does to the request/reply pair. -/
inductive AuthOutcome
  | ok (user : TokenPayload)
  | unauthorized (message : String)
deriving Repr, DecidableEq

/-- The `server.authentication` hook: 401 when the cookie is absent, else
validate the token; on success attach the verified payload as
`request.user`, on any thrown error reply 401. -/
def authentication (cfg : Config) (w : World) (s : JwksState) (req : Request) :
    AuthOutcome × JwksState × Nat :=
  match req.authTokenCookie with
  | none => (.unauthorized "No authentication token provided", s, 0)
  | some t =>
    match validateToken cfg w s t with
    | (.ok payload, s2, n) => (.ok payload, s2, n)
    | (.error _, s2, n) => (.unauthorized "Invalid authentication token", s2, n)

/-! ## Helper lemmas -/

/-- When `getJwks` succeeds, the keys it returns are exactly the cached set
of the state it leaves behind. -/
theorem getJwks_ok_cache (w : World) (s : JwksState) (jwks : List Jwk)
    (s2 : JwksState) (n : Nat) (h : getJwks w s = (.ok jwks, s2, n)) :
    s2.jwksCache = some jwks := by
  unfold getJwks fetchJwks at h
  split at h
  · split at h
    · simp only [Prod.mk.injEq, Except.ok.injEq] at h
      obtain ⟨h1, h2, _⟩ := h
      rw [← h2, h1]
    · simp at h
  · split at h
    · split at h
      · simp only [Prod.mk.injEq, Except.ok.injEq] at h
        obtain ⟨h1, h2, _⟩ := h
        rw [← h2, h1]
      · simp at h
    · simp only [Prod.mk.injEq, Except.ok.injEq] at h
      obtain ⟨h1, h2, _⟩ := h
      rw [← h2, ← h1]
      assumption

/-- Inversion of a successful `jwtVerify`. -/
theorem jwtVerify_ok (t : Token) (pem issuer : String) (algorithms : List String)
    (nowSec : Int) (payload : TokenPayload)
    (h : jwtVerify t pem issuer algorithms nowSec = .ok payload) :
    algorithms.contains t.header.alg = true ∧ sigValid pem t = true ∧
    (∀ e, t.payload.exp = some e → nowSec < e) ∧
    t.payload.iss = some issuer ∧ payload = t.payload := by
  unfold jwtVerify at h
  split at h
  · simp at h
  next ha =>
    split at h
    · simp at h
    next hs =>
      rw [not_not] at ha hs
      refine ⟨by simpa using ha, by simpa using hs, ?_⟩
      split at h
      next e he =>
        split at h
        · simp at h
        next hx =>
          split at h
          · simp at h
          next hi =>
            simp at h
            rw [not_not] at hi
            refine ⟨?_, hi, h.symm⟩
            intro e2 he2
            rw [he] at he2
            cases he2
            omega
      next he =>
        split at h
        · simp at h
        next hi =>
          simp at h
          rw [not_not] at hi
          refine ⟨?_, hi, h.symm⟩
          intro e2 he2
          rw [he] at he2
          cases he2

/-- Inversion of a successful `validateToken`. -/
theorem validateToken_ok (cfg : Config) (w : World) (s : JwksState) (t : Token)
    (payload : TokenPayload) (s2 : JwksState) (n : Nat)
    (h : validateToken cfg w s t = (.ok payload, s2, n)) :
    ∃ jwks key kid, t.wellFormed = true ∧ t.header.kid = some kid ∧ kid ≠ "" ∧
      getJwks w s = (.ok jwks, s2, n) ∧
      jwks.find? (fun k => k.kid == kid) = some key ∧
      jwtVerify t (jwkToPem key) (issuerUrl cfg) ["RS256"] w.nowSec = .ok payload := by
  unfold validateToken jwtDecodeComplete at h
  split at h
  next hd => simp at h
  next dt hd =>
    have hwf : t.wellFormed = true := by
      by_cases hb : t.wellFormed <;> simp [hb] at hd
      exact hb
    have hdt : dt = t := by
      rw [if_pos hwf] at hd
      exact (Option.some.injEq _ _ ▸ hd).symm
    subst hdt
    split at h
    · simp_all
    next kid hkid =>
      split at h
      · simp_all
      next hne =>
        split at h
        next e s2a na hj => simp_all
        next jwks s2a na hj =>
          split at h
          · simp_all
          next key hf =>
            split at h
            next pl hv =>
              simp at h
              obtain ⟨hp, hs2, hn⟩ := h
              subst hs2; subst hn
              exact ⟨jwks, key, kid, hwf, hkid, hne, hj, hf, by rw [hv, hp]⟩
            next ev hv => simp_all

/-! ## Claim theorems -/

/-- C5: whenever a cached key set exists and its age is within the 24-hour
TTL, `getJwks` returns the cached set, leaves the state untouched and makes
zero network calls — regardless of whether the remote endpoint is reachable
(`w.remoteKeys` is unconstrained). -/
theorem getJwks_fresh_cache_no_network (w : World) (s : JwksState) (ks : List Jwk)
    (hc : s.jwksCache = some ks) (hfresh : w.now - s.jwksLastFetch ≤ CACHE_TTL) :
    getJwks w s = (.ok ks, s, 0) := by
  have hnot : ¬ (w.now - s.jwksLastFetch > CACHE_TTL) := by omega
  simp [getJwks, hc, hnot]

/-- C5 witness: a fresh cache is served even while the endpoint is down. -/
theorem getJwks_fresh_cache_no_network_witness :
    (JwksState.mk (some [Jwk.mk "abc" "RSA" "mat1"]) 0).jwksCache = some [Jwk.mk "abc" "RSA" "mat1"] ∧
    (1000 : Int) - 0 ≤ CACHE_TTL ∧
    getJwks (World.mk 1000 none) (JwksState.mk (some [Jwk.mk "abc" "RSA" "mat1"]) 0) =
      (.ok [Jwk.mk "abc" "RSA" "mat1"], JwksState.mk (some [Jwk.mk "abc" "RSA" "mat1"]) 0, 0) :=
  ⟨rfl, by decide, getJwks_fresh_cache_no_network _ _ _ rfl (by decide)⟩

/-- C2 counterexample: a cached key set exists (one day stale) and the remote
fetch fails, yet `getJwks` does NOT return the stale cached set — it throws
`"Failed to retrieve JWKs"` (`FETCH_ERROR`). The claimed stale-cache fallback
is absent from the code. -/
theorem getJwks_stale_fallback_counterexample :
    (JwksState.mk (some [Jwk.mk "abc" "RSA" "mat1"]) 0).jwksCache = some [Jwk.mk "abc" "RSA" "mat1"] ∧
    (World.mk 86400001 none).remoteKeys = none ∧
    getJwks (World.mk 86400001 none) (JwksState.mk (some [Jwk.mk "abc" "RSA" "mat1"]) 0) =
      (.error .FETCH_ERROR, JwksState.mk (some [Jwk.mk "abc" "RSA" "mat1"]) 0, 1) := by
  refine ⟨rfl, rfl, ?_⟩
  rfl

/-- C2 amended: whenever `getJwks` actually attempts a fetch (no cache, or a
cache older than the TTL) and the fetch fails, the `FETCH_ERROR` always
propagates to the caller — even when a stale cached set exists. -/
theorem getJwks_fetch_failure_propagates (w : World) (s : JwksState)
    (hdown : w.remoteKeys = none)
    (hmiss : s.jwksCache = none ∨ w.now - s.jwksLastFetch > CACHE_TTL) :
    getJwks w s = (.error .FETCH_ERROR, s, 1) := by
  cases hc : s.jwksCache with
  | none => simp [getJwks, fetchJwks, hc, hdown]
  | some cache =>
    rcases hmiss with h1 | h2
    · rw [hc] at h1; cases h1
    · simp [getJwks, fetchJwks, hc, hdown, h2]

/-- C2 amended witness: stale cache plus unreachable endpoint still fails. -/
theorem getJwks_fetch_failure_propagates_witness :
    (World.mk 86400001 none).remoteKeys = none ∧
    ((86400001 : Int) - 0 > CACHE_TTL) ∧
    getJwks (World.mk 86400001 none) (JwksState.mk (some [Jwk.mk "xyz" "RSA" "mat2"]) 0) =
      (.error .FETCH_ERROR, JwksState.mk (some [Jwk.mk "xyz" "RSA" "mat2"]) 0, 1) :=
  ⟨rfl, by decide, getJwks_fetch_failure_propagates _ _ rfl (Or.inr (by decide))⟩

/-- C1 counterexample: the token's `kid` (`"xyz"`) is absent from the cached
key set but present in the remote key set, the cache is fresh, and
`validateToken` rejects with `UNKNOWN_KEY` after ZERO cache-refresh retries
(fetch count 0) instead of the claimed single refresh followed by success. -/
theorem validateToken_retry_counterexample :
    ([Jwk.mk "abc" "RSA" "m1"].find? (fun k => k.kid == "xyz") = none) ∧
    ([Jwk.mk "abc" "RSA" "m1", Jwk.mk "xyz" "RSA" "m2"].find? (fun k => k.kid == "xyz") =
      some (Jwk.mk "xyz" "RSA" "m2")) ∧
    validateToken (Config.mk "us-east-1" "pool1")
      (World.mk 1000000 (some [Jwk.mk "abc" "RSA" "m1", Jwk.mk "xyz" "RSA" "m2"]))
      (JwksState.mk (some [Jwk.mk "abc" "RSA" "m1"]) 500000)
      (Token.mk true (TokenHeader.mk "RS256" (some "xyz"))
        (TokenPayload.mk (some (issuerUrl (Config.mk "us-east-1" "pool1"))) (some 99999999) "sub1" "u@x.com")
        "sig") =
      (.error .UNKNOWN_KEY, JwksState.mk (some [Jwk.mk "abc" "RSA" "m1"]) 500000, 0) := by
  refine ⟨rfl, rfl, ?_⟩
  rfl

/-- C1 amended: `validateToken` performs zero cache-refresh retries on an
unknown key identifier: when the cache is fresh (within TTL) and does not
contain the token's `kid`, it rejects with `UNKNOWN_KEY` immediately, with
zero fetch attempts — whatever the remote key set holds. A fetch happens only
when the cache is empty or past its TTL. -/
theorem validateToken_unknown_key_no_retry (cfg : Config) (w : World) (s : JwksState)
    (t : Token) (ks : List Jwk) (kid : String)
    (hwf : t.wellFormed = true) (hkid : t.header.kid = some kid) (hne : kid ≠ "")
    (hc : s.jwksCache = some ks) (hfresh : w.now - s.jwksLastFetch ≤ CACHE_TTL)
    (hmiss : ks.find? (fun k => k.kid == kid) = none) :
    validateToken cfg w s t = (.error .UNKNOWN_KEY, s, 0) := by
  have hj : getJwks w s = (.ok ks, s, 0) := by
    have hnot : ¬ (w.now - s.jwksLastFetch > CACHE_TTL) := by omega
    simp [getJwks, hc, hnot]
  simp [validateToken, jwtDecodeComplete, hwf, hkid, hne, hj, hmiss]

/-- C1 amended witness: concrete fresh-cache miss, rejected with zero fetches. -/
theorem validateToken_unknown_key_no_retry_witness :
    validateToken (Config.mk "us-east-1" "pool1")
      (World.mk 1000000 (some [Jwk.mk "xyz" "RSA" "m2"]))
      (JwksState.mk (some [Jwk.mk "abc" "RSA" "m1"]) 500000)
      (Token.mk true (TokenHeader.mk "RS256" (some "xyz"))
        (TokenPayload.mk (some (issuerUrl (Config.mk "us-east-1" "pool1"))) (some 99999999) "sub1" "u@x.com")
        "sig") =
      (.error .UNKNOWN_KEY, JwksState.mk (some [Jwk.mk "abc" "RSA" "m1"]) 500000, 0) :=
  validateToken_unknown_key_no_retry _ _ _ _ _ _ rfl rfl (by decide) rfl (by decide) (by decide)

/-- C7: a request with no `authToken` cookie is rejected 401 with
`"No authentication token provided"`, the verifier is never invoked, the
key-cache state is untouched and zero network fetches happen. -/
theorem authentication_no_cookie (cfg : Config) (w : World) (s : JwksState) (req : Request)
    (h : req.authTokenCookie = none) :
    authentication cfg w s req = (.unauthorized "No authentication token provided", s, 0) := by
  simp [authentication, h]

/-- C7 witness. -/
theorem authentication_no_cookie_witness :
    authentication (Config.mk "us-east-1" "pool1") (World.mk 0 none) initialJwksState
      (Request.mk none) =
      (.unauthorized "No authentication token provided", initialJwksState, 0) :=
  authentication_no_cookie _ _ _ _ rfl

/-- C4: a token whose header algorithm is not the single allow-listed
`"RS256"` (e.g. `"none"` or `"HS256"`) is rejected with `INVALID` as soon as
its key resolves, with no condition on its signature: `jwt.verify` checks the
algorithm allow-list before the signature, and `validateToken` maps every
`jwt.verify` failure to `"Invalid token"`. -/
theorem validateToken_bad_alg_rejected_invalid (cfg : Config) (w : World) (s : JwksState)
    (t : Token) (kid : String) (jwks : List Jwk) (key : Jwk) (s2 : JwksState) (n : Nat)
    (hwf : t.wellFormed = true) (hkid : t.header.kid = some kid) (hne : kid ≠ "")
    (hj : getJwks w s = (.ok jwks, s2, n))
    (hfind : jwks.find? (fun k => k.kid == kid) = some key)
    (halg : t.header.alg ≠ "RS256") :
    validateToken cfg w s t = (.error .INVALID, s2, n) := by
  have hv : jwtVerify t (jwkToPem key) (issuerUrl cfg) ["RS256"] w.nowSec =
      .error .invalidAlgorithm := by
    unfold jwtVerify
    rw [if_pos (by simp [halg])]
  simp [validateToken, jwtDecodeComplete, hwf, hkid, hne, hj, hfind, hv]

/-- C4 witness: an `alg = "none"` token whose signature IS the one its cached
key would produce is still rejected with `INVALID` and never yields an
identity. -/
theorem validateToken_bad_alg_rejected_invalid_witness :
    sigValid (jwkToPem (Jwk.mk "abc" "RSA" "m1"))
      (Token.mk true (TokenHeader.mk "none" (some "abc"))
        (TokenPayload.mk (some (issuerUrl (Config.mk "r" "p"))) (some 2000000000) "sub1" "u@x.com")
        (mkSig (jwkToPem (Jwk.mk "abc" "RSA" "m1")) (TokenHeader.mk "none" (some "abc"))
          (TokenPayload.mk (some (issuerUrl (Config.mk "r" "p"))) (some 2000000000) "sub1" "u@x.com"))) = true ∧
    validateToken (Config.mk "r" "p") (World.mk 1000000 none)
      (JwksState.mk (some [Jwk.mk "abc" "RSA" "m1"]) 0)
      (Token.mk true (TokenHeader.mk "none" (some "abc"))
        (TokenPayload.mk (some (issuerUrl (Config.mk "r" "p"))) (some 2000000000) "sub1" "u@x.com")
        (mkSig (jwkToPem (Jwk.mk "abc" "RSA" "m1")) (TokenHeader.mk "none" (some "abc"))
          (TokenPayload.mk (some (issuerUrl (Config.mk "r" "p"))) (some 2000000000) "sub1" "u@x.com"))) =
      (.error .INVALID, JwksState.mk (some [Jwk.mk "abc" "RSA" "m1"]) 0, 0) :=
  ⟨rfl, validateToken_bad_alg_rejected_invalid _ _ _ _ "abc" _ _ _ _ rfl rfl (by decide) rfl rfl
    (by decide)⟩

/-- C6: a token whose `exp` is in the past at verification time is rejected
with `INVALID` once its key resolves — with no further condition on its
signature, issuer or algorithm, since every `jwt.verify` failure (including
`TokenExpiredError`) is caught and rethrown as `"Invalid token"`. -/
theorem validateToken_expired_rejected_invalid (cfg : Config) (w : World) (s : JwksState)
    (t : Token) (kid : String) (jwks : List Jwk) (key : Jwk) (s2 : JwksState) (n : Nat) (e : Int)
    (hwf : t.wellFormed = true) (hkid : t.header.kid = some kid) (hne : kid ≠ "")
    (hj : getJwks w s = (.ok jwks, s2, n))
    (hfind : jwks.find? (fun k => k.kid == kid) = some key)
    (hexp : t.payload.exp = some e) (hpast : e < w.nowSec) :
    validateToken cfg w s t = (.error .INVALID, s2, n) := by
  have hv : ∃ err, jwtVerify t (jwkToPem key) (issuerUrl cfg) ["RS256"] w.nowSec = .error err := by
    unfold jwtVerify
    split
    · exact ⟨_, rfl⟩
    split
    · exact ⟨_, rfl⟩
    split
    next e2 he2 =>
      rw [hexp] at he2
      injection he2 with he3
      subst he3
      split
      next hx => exact ⟨_, rfl⟩
      next hx => exact absurd (le_of_lt hpast) hx
    next he2 =>
      rw [hexp] at he2
      cases he2
  obtain ⟨err, hv⟩ := hv
  simp [validateToken, jwtDecodeComplete, hwf, hkid, hne, hj, hfind, hv]

/-- C6 witness: a token with valid signature, matching issuer and `RS256`
algorithm, but `exp = 1` (long past), is rejected with `INVALID`. -/
theorem validateToken_expired_rejected_invalid_witness :
    sigValid (jwkToPem (Jwk.mk "abc" "RSA" "m1"))
      (Token.mk true (TokenHeader.mk "RS256" (some "abc"))
        (TokenPayload.mk (some (issuerUrl (Config.mk "r" "p"))) (some 1) "sub1" "u@x.com")
        (mkSig (jwkToPem (Jwk.mk "abc" "RSA" "m1")) (TokenHeader.mk "RS256" (some "abc"))
          (TokenPayload.mk (some (issuerUrl (Config.mk "r" "p"))) (some 1) "sub1" "u@x.com"))) = true ∧
    ((1 : Int) < (World.mk 1000000 none).nowSec) ∧
    validateToken (Config.mk "r" "p") (World.mk 1000000 none)
      (JwksState.mk (some [Jwk.mk "abc" "RSA" "m1"]) 0)
      (Token.mk true (TokenHeader.mk "RS256" (some "abc"))
        (TokenPayload.mk (some (issuerUrl (Config.mk "r" "p"))) (some 1) "sub1" "u@x.com")
        (mkSig (jwkToPem (Jwk.mk "abc" "RSA" "m1")) (TokenHeader.mk "RS256" (some "abc"))
          (TokenPayload.mk (some (issuerUrl (Config.mk "r" "p"))) (some 1) "sub1" "u@x.com"))) =
      (.error .INVALID, JwksState.mk (some [Jwk.mk "abc" "RSA" "m1"]) 0, 0) :=
  ⟨rfl, by decide,
    validateToken_expired_rejected_invalid _ _ _ _ "abc" _ _ _ _ 1 rfl rfl (by decide) rfl rfl rfl
      (by decide)⟩

/-- C3: if the authentication hook attaches an identity (`request.user`),
then the request carried a token that is well-formed, whose `kid` names a key
present in the key-cache state at validation time, whose signature is the one
that key produces, whose algorithm is exactly `"RS256"`, whose issuer equals
the configured Cognito issuer URL, and which is unexpired; the attached
payload is exactly the token's payload (never a partial identity). -/
theorem authentication_identity_invariant (cfg : Config) (w : World) (s : JwksState)
    (req : Request) (payload : TokenPayload) (s2 : JwksState) (n : Nat)
    (h : authentication cfg w s req = (.ok payload, s2, n)) :
    ∃ t ks key kid,
      req.authTokenCookie = some t ∧
      t.wellFormed = true ∧
      s2.jwksCache = some ks ∧ key ∈ ks ∧
      t.header.kid = some kid ∧ key.kid = kid ∧
      sigValid (jwkToPem key) t = true ∧
      t.header.alg = "RS256" ∧
      t.payload.iss = some (issuerUrl cfg) ∧
      (∀ e, t.payload.exp = some e → w.nowSec < e) ∧
      payload = t.payload := by
  unfold authentication at h
  split at h
  next hr => simp at h
  next t hr =>
    split at h
    next pl s2a na hveq =>
      simp only [Prod.mk.injEq, AuthOutcome.ok.injEq] at h
      obtain ⟨hp, hs2, hn⟩ := h
      subst hp; subst hs2; subst hn
      obtain ⟨jwks, key, kid, hwf, hkid, hne, hj, hfind, hver⟩ :=
        validateToken_ok cfg w s t pl s2a na hveq
      obtain ⟨halg, hsig, hfresh, hiss, hpl⟩ :=
        jwtVerify_ok t (jwkToPem key) (issuerUrl cfg) ["RS256"] w.nowSec pl hver
      refine ⟨t, jwks, key, kid, hr, hwf, getJwks_ok_cache w s jwks s2a na hj,
        List.mem_of_find?_eq_some hfind, hkid, ?_, hsig, ?_, hiss, ?_, hpl⟩
      · have hbeq : (key.kid == kid) = true := by simpa using List.find?_some hfind
        exact eq_of_beq hbeq
      · simpa using halg
      · intro e he
        exact hfresh e he
    next err s2a na hveq =>
      simp at h

/-- C3 witness: a concrete fully valid token is accepted and the attached
identity satisfies every clause of the invariant. -/
theorem authentication_identity_invariant_witness :
    authentication (Config.mk "r" "p") (World.mk 1000000 none)
      (JwksState.mk (some [Jwk.mk "abc" "RSA" "m1"]) 0)
      (Request.mk (some (Token.mk true (TokenHeader.mk "RS256" (some "abc"))
        (TokenPayload.mk (some (issuerUrl (Config.mk "r" "p"))) (some 2000000000) "sub1" "u@x.com")
        (mkSig (jwkToPem (Jwk.mk "abc" "RSA" "m1")) (TokenHeader.mk "RS256" (some "abc"))
          (TokenPayload.mk (some (issuerUrl (Config.mk "r" "p"))) (some 2000000000) "sub1" "u@x.com"))))) =
      (.ok (TokenPayload.mk (some (issuerUrl (Config.mk "r" "p"))) (some 2000000000) "sub1" "u@x.com"),
        JwksState.mk (some [Jwk.mk "abc" "RSA" "m1"]) 0, 0) ∧
    (∃ t ks key kid,
      (Request.mk (some (Token.mk true (TokenHeader.mk "RS256" (some "abc"))
        (TokenPayload.mk (some (issuerUrl (Config.mk "r" "p"))) (some 2000000000) "sub1" "u@x.com")
        (mkSig (jwkToPem (Jwk.mk "abc" "RSA" "m1")) (TokenHeader.mk "RS256" (some "abc"))
          (TokenPayload.mk (some (issuerUrl (Config.mk "r" "p"))) (some 2000000000) "sub1" "u@x.com"))))).authTokenCookie = some t ∧
      t.wellFormed = true ∧
      (JwksState.mk (some [Jwk.mk "abc" "RSA" "m1"]) 0).jwksCache = some ks ∧ key ∈ ks ∧
      t.header.kid = some kid ∧ key.kid = kid ∧
      sigValid (jwkToPem key) t = true ∧
      t.header.alg = "RS256" ∧
      t.payload.iss = some (issuerUrl (Config.mk "r" "p")) ∧
      (∀ e, t.payload.exp = some e → (World.mk 1000000 none).nowSec < e) ∧
      TokenPayload.mk (some (issuerUrl (Config.mk "r" "p"))) (some 2000000000) "sub1" "u@x.com" = t.payload) :=
  ⟨rfl, authentication_identity_invariant (Config.mk "r" "p") (World.mk 1000000 none)
    (JwksState.mk (some [Jwk.mk "abc" "RSA" "m1"]) 0)
    (Request.mk (some (Token.mk true (TokenHeader.mk "RS256" (some "abc"))
      (TokenPayload.mk (some (issuerUrl (Config.mk "r" "p"))) (some 2000000000) "sub1" "u@x.com")
      (mkSig (jwkToPem (Jwk.mk "abc" "RSA" "m1")) (TokenHeader.mk "RS256" (some "abc"))
        (TokenPayload.mk (some (issuerUrl (Config.mk "r" "p"))) (some 2000000000) "sub1" "u@x.com")))))
    (TokenPayload.mk (some (issuerUrl (Config.mk "r" "p"))) (some 2000000000) "sub1" "u@x.com")
    (JwksState.mk (some [Jwk.mk "abc" "RSA" "m1"]) 0) 0 rfl⟩

/-- C8: `calculateSecretHash` equals the base64 encoding of HMAC-SHA256
keyed by `clientSecret` over the concatenation `username + clientId`, and it
is deterministic: equal inputs always give equal outputs. (It is a pure
function of its three string arguments by construction.) -/
theorem calculateSecretHash_hmac_base64 (clientId clientSecret username : String) :
    calculateSecretHash clientId clientSecret username =
      base64Encode (hmacSha256 (strBytes clientSecret) (strBytes (username ++ clientId))) ∧
    (∀ c2 s2 u2, clientId = c2 → clientSecret = s2 → username = u2 →
      calculateSecretHash clientId clientSecret username = calculateSecretHash c2 s2 u2) := by
  constructor
  · simp [calculateSecretHash, createHmac, Hmac.update, Hmac.digestBase64]
  · intro c2 s2 u2 h1 h2 h3
    rw [h1, h2, h3]

/-- C8 witness. -/
theorem calculateSecretHash_hmac_base64_witness :
    (calculateSecretHash "cid" "sec" "user" =
      base64Encode (hmacSha256 (strBytes "sec") (strBytes ("user" ++ "cid")))) ∧
    calculateSecretHash "cid" "sec" "user" = calculateSecretHash "cid" "sec" "user" :=
  ⟨(calculateSecretHash_hmac_base64 "cid" "sec" "user").1,
   (calculateSecretHash_hmac_base64 "cid" "sec" "user").2 "cid" "sec" "user" rfl rfl rfl⟩

/-- C10: the credential hash depends on `username` and `clientId` only
through their concatenation: whenever `username1 ++ clientId1` and
`username2 ++ clientId2` are equal strings, the hashes coincide, so distinct
pairs sharing a concatenation collide. -/
theorem calculateSecretHash_concat_collision (cs u1 c1 u2 c2 : String)
    (h : u1 ++ c1 = u2 ++ c2) :
    calculateSecretHash c1 cs u1 = calculateSecretHash c2 cs u2 := by
  simp [calculateSecretHash, createHmac, Hmac.update, Hmac.digestBase64, h]

/-- C10 witness: `("a", "bc")` and `("ab", "c")` collide. -/
theorem calculateSecretHash_concat_collision_witness :
    ("a" ++ "bc" = "ab" ++ "c") ∧
    calculateSecretHash "bc" "k" "a" = calculateSecretHash "c" "k" "ab" :=
  ⟨by decide, calculateSecretHash_concat_collision "k" "a" "bc" "ab" "c" (by decide)⟩

/-- C9: every provider error code outside the mapper's recognized set maps to
the single sanitized generic kind (status 500, code `INTERNAL_AUTH_ERROR`,
fixed message — the raw provider error is not echoed); and each recognized
provider error code maps to its fixed HTTP status with the provider code as
the machine-readable code, the nine claim-listed codes being pairwise
distinct kinds. -/
theorem handleCognitoError_mapping (t : String) (hu : t ∉ recognizedCognitoErrors) :
    handleCognitoError t =
      AppError.mk "An authentication error occurred. Please try again later." 500 "INTERNAL_AUTH_ERROR" ∧
    (handleCognitoError "UserNotConfirmedException").statusCode = 403 ∧
    (handleCognitoError "UserNotConfirmedException").errorCode = "UserNotConfirmedException" ∧
    (handleCognitoError "NotAuthorizedException").statusCode = 401 ∧
    (handleCognitoError "NotAuthorizedException").errorCode = "NotAuthorizedException" ∧
    (handleCognitoError "UserNotFoundException").statusCode = 404 ∧
    (handleCognitoError "UserNotFoundException").errorCode = "UserNotFoundException" ∧
    (handleCognitoError "PasswordResetRequiredException").statusCode = 403 ∧
    (handleCognitoError "PasswordResetRequiredException").errorCode = "PasswordResetRequiredException" ∧
    (handleCognitoError "CodeMismatchException").statusCode = 400 ∧
    (handleCognitoError "CodeMismatchException").errorCode = "CodeMismatchException" ∧
    (handleCognitoError "ExpiredCodeException").statusCode = 400 ∧
    (handleCognitoError "ExpiredCodeException").errorCode = "ExpiredCodeException" ∧
    (handleCognitoError "TooManyRequestsException").statusCode = 429 ∧
    (handleCognitoError "TooManyRequestsException").errorCode = "TooManyRequestsException" ∧
    (handleCognitoError "InvalidPasswordException").statusCode = 400 ∧
    (handleCognitoError "InvalidPasswordException").errorCode = "InvalidPasswordException" ∧
    (handleCognitoError "UsernameExistsException").statusCode = 409 ∧
    (handleCognitoError "UsernameExistsException").errorCode = "UsernameExistsException" ∧
    ["UserNotConfirmedException", "NotAuthorizedException", "UserNotFoundException",
     "PasswordResetRequiredException", "CodeMismatchException", "ExpiredCodeException",
     "TooManyRequestsException", "InvalidPasswordException",
     "UsernameExistsException"].Nodup := by
  refine ⟨?_, rfl, rfl, rfl, rfl, rfl, rfl, rfl, rfl, rfl, rfl, rfl, rfl, rfl, rfl, rfl, rfl,
    rfl, rfl, by decide⟩
  unfold handleCognitoError
  split
  all_goals first
    | rfl
    | simp [recognizedCognitoErrors] at hu

/-- C9 witness: an unrecognized provider code falls back to the generic kind. -/
theorem handleCognitoError_mapping_witness :
    ("SomeNewException" ∉ recognizedCognitoErrors) ∧
    handleCognitoError "SomeNewException" =
      AppError.mk "An authentication error occurred. Please try again later." 500 "INTERNAL_AUTH_ERROR" :=
  ⟨by decide, (handleCognitoError_mapping "SomeNewException" (by decide)).1⟩

end Gateway
